import Mathlib

/-!
Verification of the chloe-supabase-edge-functions request handlers.

Shallow embedding: each Deno edge function is modelled as a pure Lean
function from an environment (the outcomes of its external calls: auth,
PostgREST reads/writes, the GROQ completion API) and an initial store
(the rows of the tables it touches) to a result, a final store, and a
trace of the side-effecting calls it issued.  Machine-incidental parts
(CORS, HTTP method routing, bearer-token parsing, logging) are outside
the embedded fragment; the embedding starts where each handler begins
its business logic.
-/

/-- Row of `user_journey_message` / `chat_message` as selected by the reply
handlers (`id, content, role, created_at` plus the insert columns).
`conversationId` models `user_journey_id` (journey flow) respectively
`session_id` (chat flow); `createdAt` and `ordinal` model the
server-assigned `created_at` timestamp and `ordinal` counter. -/
structure MsgRow where
  id : String
  conversationId : String
  userId : Option String
  role : String
  content : String
  ordinal : Nat
  createdAt : Nat
deriving DecidableEq, Repr

/-- One element of the `messages` array sent to the GROQ chat-completions
endpoint by the reply and resume handlers (`{ role, content }`). -/
structure GroqMessage where
  role : String
  content : String
deriving DecidableEq, Repr

/-- The fixed history window: `limit(40)` in both reply handlers and
`MESSAGE_HISTORY_LIMIT = 40` in the resume handler. -/
def MESSAGE_HISTORY_LIMIT : Nat := 40

/-- Insert a message into a list that is already sorted by `createdAt`,
keeping it sorted (the new row goes after all rows with an earlier or
equal timestamp). -/
def insertByTime (m : MsgRow) : List MsgRow → List MsgRow
  | [] => [m]
  | x :: xs =>
    if m.createdAt < x.createdAt then m :: x :: xs else x :: insertByTime m xs

/-- Sort rows ascending by `createdAt`; models the server-side
`ORDER BY created_at ASC` of the history query. -/
def sortByTime : List MsgRow → List MsgRow
  | [] => []
  | x :: xs => insertByTime x (sortByTime xs)

/-- The history query issued by the reply handlers
(`llm-journey-chat-handler/index.ts` lines 143-148 and 424-429) and the
resume handler (`unnamed/part_000` lines 179-184):
`.eq(conversation column, id).order("created_at", ascending).limit(40)`.
Note the query sorts ascending and then limits, so it yields the 40
oldest rows of the conversation. -/
def fetchHistory (convId : String) (store : List MsgRow) : List MsgRow :=
  (sortByTime (store.filter (fun r => r.conversationId == convId))).take
    MESSAGE_HISTORY_LIMIT

/-- The history loader as the spec describes it (spec sections 4.3 and 8):
up to `limit` MOST RECENT messages by creation time, presented
oldest-first.  Stated only for comparison against `fetchHistory`, which is
the embedding of the source. -/
def loadHistorySpec (convId : String) (store : List MsgRow) (limit : Nat) :
    List MsgRow :=
  let sorted := sortByTime (store.filter (fun r => r.conversationId == convId))
  sorted.drop (sorted.length - limit)

/-- The `groqMessages` assembly of the reply handlers
(`llm-journey-chat-handler/index.ts` lines 158-167 and 446-455):
the system prompt followed by the fetched history mapped to
`{ role, content }`. -/
def assembleGroqMessages (systemPrompt : String) (dbMessages : List MsgRow) :
    List GroqMessage :=
  { role := "system", content := systemPrompt } ::
    dbMessages.map (fun msg => { role := msg.role, content := msg.content })

/-- `GREETING_MESSAGE_TEMPLATE` of the resume handler
(`unnamed/part_000` line 21). -/
def GREETING_MESSAGE_TEMPLATE : String :=
  "I am back in the chat. Please pick up the conversation where we left off and greet me warmly using my name once. My name is {name}"

/-- `DEFAULT_NAME_FALLBACK` of the resume handler (`unnamed/part_000`
line 22). -/
def DEFAULT_NAME_FALLBACK : String := "there"

/-- The `groqMessages` assembly of the resume-greeting handler
(`unnamed/part_000` lines 201-214): system prompt, fetched history, then
a trailing synthetic user turn built from the greeting template with the
preferred name (or the fixed fallback) substituted. -/
def resumeGroqMessages (systemPrompt : String) (dbMessages : List MsgRow)
    (preferredName : Option String) : List GroqMessage :=
  ({ role := "system", content := systemPrompt } : GroqMessage) ::
    dbMessages.map (fun msg => { role := msg.role, content := msg.content }) ++
    [{ role := "user",
       content := GREETING_MESSAGE_TEMPLATE.replace "{name}"
         (preferredName.getD DEFAULT_NAME_FALLBACK) }]

/-- A conversation `j` message for the concrete history counterexample:
message `i` was created at time `i`. -/
def c1Msg (i : Nat) : MsgRow :=
  { id := "m" ++ toString i, conversationId := "j", userId := some "u1",
    role := "user", content := "old " ++ toString i, ordinal := i,
    createdAt := i }

/-- A conversation with 41 persisted messages, created at times 0..40. -/
def c1Store : List MsgRow := (List.range 41).map c1Msg

/-- C1: on a conversation with 41 messages the history query returns the
40 OLDEST messages (times 0..39), whereas the spec's loader returns the
40 most recent (times 1..40); the two differ, while the
`min(limit, messageCount)` cardinality part of the claim does hold. -/
theorem fetchHistory_returns_oldest_on_41 :
    fetchHistory "j" c1Store = (List.range 40).map c1Msg ∧
    loadHistorySpec "j" c1Store MESSAGE_HISTORY_LIMIT =
      (List.range 40).map (fun i => c1Msg (i + 1)) ∧
    fetchHistory "j" c1Store ≠ loadHistorySpec "j" c1Store MESSAGE_HISTORY_LIMIT ∧
    (fetchHistory "j" c1Store).length = min MESSAGE_HISTORY_LIMIT c1Store.length := by
  decide

/-- C8: whatever the history (including the empty one) and preferred name,
the assembled outbound message list places the system prompt at index 0,
both in the reply handlers' assembly and in the resume handler's. -/
theorem assemble_system_first (systemPrompt : String) (dbMessages : List MsgRow)
    (preferredName : Option String) :
    (assembleGroqMessages systemPrompt dbMessages)[0]? =
      some { role := "system", content := systemPrompt } ∧
    (resumeGroqMessages systemPrompt dbMessages preferredName)[0]? =
      some { role := "system", content := systemPrompt } := by
  constructor <;> simp [assembleGroqMessages, resumeGroqMessages]

/-- Row of `user_journey` as selected by the journey handlers
(`select("id, user_id, journey_key")`). -/
structure JourneyRow where
  id : String
  user_id : String
  journey_key : String
deriving DecidableEq, Repr

/-- Row of `chat_session` as selected by the chat reply handler
(`select("id, user_id")`). -/
structure SessionRow where
  id : String
  user_id : String
deriving DecidableEq, Repr

/-- The server-assigned values returned by a successful message insert
(`select("id, ordinal, created_at")`). -/
structure MsgMeta where
  id : String
  ordinal : Nat
  createdAt : Nat
deriving DecidableEq, Repr

/-- JS truthiness of an optional string field (`!promptData?.content`
style guards): an absent value and the empty string are both falsy. -/
def truthy : Option String → Option String
  | none => none
  | some s => if s = "" then none else some s

/-- Whitespace trim on both ends, modelling the JS `trim()` call; defined
over the character list so that it evaluates by kernel reduction. -/
def trimJS (s : String) : String :=
  String.mk
    (((s.data.dropWhile Char.isWhitespace).reverse.dropWhile
        Char.isWhitespace).reverse)

/-- The `choices?.[0]?.message?.content?.trim()` extraction followed by
the `if (!aiResponse)` guard: absent content, or content whose trimmed
text is empty, yields nothing. -/
def extractText : Option String → Option String
  | none => none
  | some s =>
    let t := trimJS s
    if t = "" then none else some t

/-- Side-effecting calls a reply handler issues, in order: the user-turn
insert, the GROQ completion call (with the exact outbound message list),
and the assistant-turn insert. -/
inductive Event where
  | insertUser (row : MsgRow)
  | groqCall (messages : List GroqMessage)
  | insertAssistant (row : MsgRow)
deriving DecidableEq, Repr

/-- Success body of a reply handler (`ResponseBody`): conversation id,
new assistant message id, content, ordinal, created_at. -/
structure ReplyOk where
  conversationId : String
  messageId : String
  content : String
  ordinal : Nat
  createdAt : Nat
deriving DecidableEq, Repr

/-- Outcome of a reply handler; each error constructor corresponds to one
early-return branch of the source, in source order. -/
inductive ReplyResult where
  | notFound
  | saveUserFailed
  | promptNotFound
  | historyFailed
  | groqFailed
  | emptyResponse
  | saveMessageFailed
  | ok (body : ReplyOk)
deriving DecidableEq, Repr

/-- HTTP status of each reply outcome as set by the source. -/
def replyStatus : ReplyResult → Nat
  | .notFound => 404
  | .ok _ => 200
  | _ => 500

/-- Result, final conversation store and call trace of one reply-handler
run. -/
structure RunOut where
  result : ReplyResult
  store : List MsgRow
  trace : List Event
deriving DecidableEq, Repr

/-- Environment of the journey reply handler: the request fields and the
outcome of each external call it makes. `journeyLookup = none` models a
`.single()` error or missing row; `userInsert`/`assistantInsert = none`
model failed inserts; `promptContent` is `promptData?.content`;
`historyOk = false` models `messagesError`; `groqOk` is
`groqResponse.ok`; `groqContent` is `choices?.[0]?.message?.content`. -/
structure JourneyReplyEnv where
  userId : String
  user_journey_id : String
  content : String
  journeyLookup : Option JourneyRow
  userInsert : Option MsgMeta
  promptContent : Option String
  historyOk : Bool
  groqOk : Bool
  groqContent : Option String
  assistantInsert : Option MsgMeta
deriving DecidableEq, Repr

/-- The user-turn row the journey reply handler inserts (role `user`,
request content, server-assigned id/ordinal/created_at). -/
def journeyUserRow (env : JourneyReplyEnv) (meta : MsgMeta) : MsgRow :=
  { id := meta.id, conversationId := env.user_journey_id,
    userId := some env.userId, role := "user", content := env.content,
    ordinal := meta.ordinal, createdAt := meta.createdAt }

/-- The journey reply handler (`llm-journey-chat-handler/index.ts` lines
84-242), from the ownership check onward: verify the `user_journey` row
and its owner; insert the user turn; select the prompt (the
`journeys` metadata fetch at lines 117-122 is issued but its result and
error are never used, so it is omitted); fetch history (ascending by
`created_at`, limit 40); assemble and send the GROQ request; on a usable
completion insert the assistant turn and respond 200. -/
def journeyReplyHandler (env : JourneyReplyEnv) (store : List MsgRow) : RunOut :=
  match env.journeyLookup with
  | none => { result := .notFound, store := store, trace := [] }
  | some journeyData =>
    if journeyData.user_id ≠ env.userId then
      { result := .notFound, store := store, trace := [] }
    else
      match env.userInsert with
      | none => { result := .saveUserFailed, store := store, trace := [] }
      | some userMeta =>
        let userRow := journeyUserRow env userMeta
        let store1 := store ++ [userRow]
        let trace1 := [Event.insertUser userRow]
        match truthy env.promptContent with
        | none => { result := .promptNotFound, store := store1, trace := trace1 }
        | some systemPrompt =>
          if env.historyOk = false then
            { result := .historyFailed, store := store1, trace := trace1 }
          else
            let dbMessages := fetchHistory env.user_journey_id store1
            let groqMessages := assembleGroqMessages systemPrompt dbMessages
            let trace2 := trace1 ++ [Event.groqCall groqMessages]
            if env.groqOk = false then
              { result := .groqFailed, store := store1, trace := trace2 }
            else
              match extractText env.groqContent with
              | none => { result := .emptyResponse, store := store1, trace := trace2 }
              | some aiResponse =>
                match env.assistantInsert with
                | none => { result := .saveMessageFailed, store := store1, trace := trace2 }
                | some aMeta =>
                  let aRow : MsgRow :=
                    { id := aMeta.id, conversationId := env.user_journey_id,
                      userId := some env.userId, role := "assistant",
                      content := aiResponse, ordinal := aMeta.ordinal,
                      createdAt := aMeta.createdAt }
                  { result := .ok { conversationId := env.user_journey_id,
                                    messageId := aMeta.id, content := aiResponse,
                                    ordinal := aMeta.ordinal,
                                    createdAt := aMeta.createdAt },
                    store := store1 ++ [aRow],
                    trace := trace2 ++ [Event.insertAssistant aRow] }

/-- Environment of the chat reply handler; same shape as the journey one
but the conversation is a `chat_session` row and the prompt key is the
fixed `system_prompt`. -/
structure ChatReplyEnv where
  userId : String
  chat_session_id : String
  content : String
  sessionLookup : Option SessionRow
  userInsert : Option MsgMeta
  promptContent : Option String
  historyOk : Bool
  groqOk : Bool
  groqContent : Option String
  assistantInsert : Option MsgMeta
deriving DecidableEq, Repr

/-- The user-turn row the chat reply handler inserts. -/
def chatUserRow (env : ChatReplyEnv) (meta : MsgMeta) : MsgRow :=
  { id := meta.id, conversationId := env.chat_session_id,
    userId := some env.userId, role := "user", content := env.content,
    ordinal := meta.ordinal, createdAt := meta.createdAt }

/-- The chat reply handler (`llm-journey-chat-handler/index.ts` lines
356-547), from the ownership check onward; structurally identical to the
journey reply handler with `chat_session`/`chat_message` in place of
`user_journey`/`user_journey_message`. -/
def chatReplyHandler (env : ChatReplyEnv) (store : List MsgRow) : RunOut :=
  match env.sessionLookup with
  | none => { result := .notFound, store := store, trace := [] }
  | some sessionData =>
    if sessionData.user_id ≠ env.userId then
      { result := .notFound, store := store, trace := [] }
    else
      match env.userInsert with
      | none => { result := .saveUserFailed, store := store, trace := [] }
      | some userMeta =>
        let userRow := chatUserRow env userMeta
        let store1 := store ++ [userRow]
        let trace1 := [Event.insertUser userRow]
        match truthy env.promptContent with
        | none => { result := .promptNotFound, store := store1, trace := trace1 }
        | some systemPrompt =>
          if env.historyOk = false then
            { result := .historyFailed, store := store1, trace := trace1 }
          else
            let dbMessages := fetchHistory env.chat_session_id store1
            let groqMessages := assembleGroqMessages systemPrompt dbMessages
            let trace2 := trace1 ++ [Event.groqCall groqMessages]
            if env.groqOk = false then
              { result := .groqFailed, store := store1, trace := trace2 }
            else
              match extractText env.groqContent with
              | none => { result := .emptyResponse, store := store1, trace := trace2 }
              | some aiResponse =>
                match env.assistantInsert with
                | none => { result := .saveMessageFailed, store := store1, trace := trace2 }
                | some aMeta =>
                  let aRow : MsgRow :=
                    { id := aMeta.id, conversationId := env.chat_session_id,
                      userId := some env.userId, role := "assistant",
                      content := aiResponse, ordinal := aMeta.ordinal,
                      createdAt := aMeta.createdAt }
                  { result := .ok { conversationId := env.chat_session_id,
                                    messageId := aMeta.id, content := aiResponse,
                                    ordinal := aMeta.ordinal,
                                    createdAt := aMeta.createdAt },
                    store := store1 ++ [aRow],
                    trace := trace2 ++ [Event.insertAssistant aRow] }

/-- No GROQ completion call occurs in the trace before the user-turn
insert (once the insert has happened the property holds vacuously for
the remainder). -/
def userInsertPrecedesGroq : List Event → Bool
  | [] => true
  | Event.insertUser _ :: _ => true
  | Event.groqCall _ :: _ => false
  | Event.insertAssistant _ :: rest => userInsertPrecedesGroq rest

/-- Server-assigned values of the new user turn in the C2 scenario: it is
the 41st message of the conversation, created at time 40. -/
def metaC2 : MsgMeta := { id := "mNew", ordinal := 41, createdAt := 40 }

/-- C2 scenario environment: conversation `j` owned by the caller, user
turn `NEW` committed successfully, prompt present, history fetch
succeeds; the GROQ transport outcome is irrelevant to the assembled
context recorded in the trace. -/
def envC2 : JourneyReplyEnv :=
  { userId := "u1", user_journey_id := "j", content := "NEW",
    journeyLookup := some { id := "j", user_id := "u1", journey_key := "k" },
    userInsert := some metaC2, promptContent := some "SYS",
    historyOk := true, groqOk := false, groqContent := none,
    assistantInsert := none }

/-- The conversation already holds 40 messages (times 0..39) before the
new turn is committed. -/
def storeC2 : List MsgRow := (List.range 40).map c1Msg

/-- The row the C2 run inserts for the new user turn. -/
def userRowC2 : MsgRow := journeyUserRow envC2 metaC2

/-- The outbound message list the C2 run actually sends. -/
def gmC2 : List GroqMessage :=
  assembleGroqMessages "SYS" (fetchHistory "j" (storeC2 ++ [userRowC2]))

/-- C2: with 40 prior messages, the user turn is committed first (the
trace starts with its insert), yet the context sent to GROQ neither ends
with nor even contains the new user message `NEW` — the ascending
`limit(40)` history query dropped the newest row. -/
theorem replyContext_drops_new_user_turn :
    (journeyReplyHandler envC2 storeC2).trace =
      [Event.insertUser userRowC2, Event.groqCall gmC2] ∧
    userRowC2 ∈ (journeyReplyHandler envC2 storeC2).store ∧
    gmC2.getLast? ≠ some { role := "user", content := "NEW" } ∧
    ({ role := "user", content := "NEW" } : GroqMessage) ∉ gmC2 := by
  decide

/-- C3: in the journey reply flow, once the user turn is committed it is
durable: the inserted row is in the final store of every run outcome
(no branch deletes or rewrites it), and the trace never shows a GROQ
completion call before the user-turn insert. -/
theorem userTurn_durable (env : JourneyReplyEnv) (store : List MsgRow)
    (j : JourneyRow) (meta : MsgMeta)
    (hL : env.journeyLookup = some j)
    (hO : j.user_id = env.userId)
    (hI : env.userInsert = some meta) :
    journeyUserRow env meta ∈ (journeyReplyHandler env store).store ∧
    userInsertPrecedesGroq (journeyReplyHandler env store).trace = true := by
  cases hp : truthy env.promptContent <;>
    cases hh : env.historyOk <;>
    cases hg : env.groqOk <;>
    cases hx : extractText env.groqContent <;>
    cases ha : env.assistantInsert <;>
    simp [journeyReplyHandler, hL, hI, hO, hp, hh, hg, hx, ha,
      userInsertPrecedesGroq]

/-- Journey row for the C3 witness run. -/
def jW3 : JourneyRow := { id := "j1", user_id := "u1", journey_key := "k" }

/-- Insert result for the C3 witness run. -/
def metaW3 : MsgMeta := { id := "m1", ordinal := 1, createdAt := 1 }

/-- Fully successful reply run used as the C3 witness. -/
def envW3 : JourneyReplyEnv :=
  { userId := "u1", user_journey_id := "j1", content := "hi",
    journeyLookup := some jW3, userInsert := some metaW3,
    promptContent := some "SYS", historyOk := true, groqOk := true,
    groqContent := some "ok", assistantInsert := some { id := "m2", ordinal := 2, createdAt := 2 } }

/-- Witness for C3 at a concrete successful run. -/
theorem userTurn_durable_witness :
    journeyUserRow envW3 metaW3 ∈ (journeyReplyHandler envW3 []).store ∧
    userInsertPrecedesGroq (journeyReplyHandler envW3 []).trace = true :=
  userTurn_durable envW3 [] jW3 metaW3 rfl rfl rfl

/-- True when the trace contains an assistant-message insert. -/
def hasAssistantInsert : List Event → Bool
  | [] => false
  | Event.insertAssistant _ :: _ => true
  | _ :: rest => hasAssistantInsert rest

/-- C4: in both reply handlers, when the completion transport succeeds
but the extracted text is absent or trims to the empty string, the run
fails with the empty-response error at HTTP 500, the final store holds
only the already-committed user turn (no assistant row is added), and
the trace shows no assistant insert. -/
theorem emptyResponse_no_assistant_write
    (envJ : JourneyReplyEnv) (storeJ : List MsgRow) (j : JourneyRow)
    (um : MsgMeta) (sysJ : String)
    (envC : ChatReplyEnv) (storeC : List MsgRow) (s : SessionRow)
    (umC : MsgMeta) (sysC : String)
    (hL : envJ.journeyLookup = some j) (hO : j.user_id = envJ.userId)
    (hI : envJ.userInsert = some um) (hP : truthy envJ.promptContent = some sysJ)
    (hH : envJ.historyOk = true) (hG : envJ.groqOk = true)
    (hE : extractText envJ.groqContent = none)
    (gL : envC.sessionLookup = some s) (gO : s.user_id = envC.userId)
    (gI : envC.userInsert = some umC) (gP : truthy envC.promptContent = some sysC)
    (gH : envC.historyOk = true) (gG : envC.groqOk = true)
    (gE : extractText envC.groqContent = none) :
    (journeyReplyHandler envJ storeJ).result = .emptyResponse ∧
    replyStatus (journeyReplyHandler envJ storeJ).result = 500 ∧
    (journeyReplyHandler envJ storeJ).store = storeJ ++ [journeyUserRow envJ um] ∧
    hasAssistantInsert (journeyReplyHandler envJ storeJ).trace = false ∧
    (chatReplyHandler envC storeC).result = .emptyResponse ∧
    replyStatus (chatReplyHandler envC storeC).result = 500 ∧
    (chatReplyHandler envC storeC).store = storeC ++ [chatUserRow envC umC] ∧
    hasAssistantInsert (chatReplyHandler envC storeC).trace = false := by
  simp [journeyReplyHandler, chatReplyHandler, hL, hI, hO, hP, hH, hG, hE,
    gL, gI, gO, gP, gH, gG, gE, replyStatus, hasAssistantInsert]

/-- Journey environment for the C4 witness: the completion returns
whitespace, which trims to the empty string. -/
def envW4J : JourneyReplyEnv :=
  { userId := "u1", user_journey_id := "j1", content := "hi",
    journeyLookup := some { id := "j1", user_id := "u1", journey_key := "k" },
    userInsert := some { id := "m1", ordinal := 1, createdAt := 1 },
    promptContent := some "SYS", historyOk := true, groqOk := true,
    groqContent := some "  ", assistantInsert := some { id := "m2", ordinal := 2, createdAt := 2 } }

/-- Chat environment for the C4 witness: the completion returns no
content field at all. -/
def envW4C : ChatReplyEnv :=
  { userId := "u2", chat_session_id := "s1", content := "hey",
    sessionLookup := some { id := "s1", user_id := "u2" },
    userInsert := some { id := "n1", ordinal := 1, createdAt := 1 },
    promptContent := some "SYS2", historyOk := true, groqOk := true,
    groqContent := none, assistantInsert := some { id := "n2", ordinal := 2, createdAt := 2 } }

/-- Witness for C4 at concrete runs (whitespace-only and absent
completion text). -/
theorem emptyResponse_no_assistant_write_witness :
    (journeyReplyHandler envW4J []).result = .emptyResponse ∧
    replyStatus (journeyReplyHandler envW4J []).result = 500 ∧
    (journeyReplyHandler envW4J []).store =
      [] ++ [journeyUserRow envW4J { id := "m1", ordinal := 1, createdAt := 1 }] ∧
    hasAssistantInsert (journeyReplyHandler envW4J []).trace = false ∧
    (chatReplyHandler envW4C []).result = .emptyResponse ∧
    replyStatus (chatReplyHandler envW4C []).result = 500 ∧
    (chatReplyHandler envW4C []).store =
      [] ++ [chatUserRow envW4C { id := "n1", ordinal := 1, createdAt := 1 }] ∧
    hasAssistantInsert (chatReplyHandler envW4C []).trace = false :=
  emptyResponse_no_assistant_write envW4J []
    { id := "j1", user_id := "u1", journey_key := "k" }
    { id := "m1", ordinal := 1, createdAt := 1 } "SYS"
    envW4C [] { id := "s1", user_id := "u2" }
    { id := "n1", ordinal := 1, createdAt := 1 } "SYS2"
    rfl rfl rfl (by decide) rfl rfl (by decide)
    rfl rfl rfl (by decide) rfl rfl (by decide)

/-- C7: in both reply handlers, a conversation whose owner differs from
the caller yields the constant not-found/denied result (404), with the
store untouched and no external call issued; the result is the same
whatever the conversation store holds, so nothing derived from the
conversation's messages can appear in the response. -/
theorem foreign_conversation_denied
    (envJ : JourneyReplyEnv) (storeJ storeJ2 : List MsgRow) (j : JourneyRow)
    (envC : ChatReplyEnv) (storeC storeC2 : List MsgRow) (s : SessionRow)
    (hL : envJ.journeyLookup = some j) (hO : j.user_id ≠ envJ.userId)
    (gL : envC.sessionLookup = some s) (gO : s.user_id ≠ envC.userId) :
    (journeyReplyHandler envJ storeJ).result = .notFound ∧
    replyStatus (journeyReplyHandler envJ storeJ).result = 404 ∧
    (journeyReplyHandler envJ storeJ).store = storeJ ∧
    (journeyReplyHandler envJ storeJ).trace = [] ∧
    (journeyReplyHandler envJ storeJ).result = (journeyReplyHandler envJ storeJ2).result ∧
    (chatReplyHandler envC storeC).result = .notFound ∧
    replyStatus (chatReplyHandler envC storeC).result = 404 ∧
    (chatReplyHandler envC storeC).store = storeC ∧
    (chatReplyHandler envC storeC).trace = [] ∧
    (chatReplyHandler envC storeC).result = (chatReplyHandler envC storeC2).result := by
  simp [journeyReplyHandler, chatReplyHandler, hL, hO, gL, gO, replyStatus]

/-- Journey environment for the C7 witness: conversation owned by `owner`,
caller is `intruder`. -/
def envW7J : JourneyReplyEnv :=
  { userId := "intruder", user_journey_id := "j1", content := "hi",
    journeyLookup := some { id := "j1", user_id := "owner", journey_key := "k" },
    userInsert := some { id := "m1", ordinal := 1, createdAt := 1 },
    promptContent := some "SYS", historyOk := true, groqOk := true,
    groqContent := some "ok", assistantInsert := none }

/-- Chat environment for the C7 witness. -/
def envW7C : ChatReplyEnv :=
  { userId := "intruder", chat_session_id := "s1", content := "hi",
    sessionLookup := some { id := "s1", user_id := "owner" },
    userInsert := some { id := "n1", ordinal := 1, createdAt := 1 },
    promptContent := some "SYS", historyOk := true, groqOk := true,
    groqContent := some "ok", assistantInsert := none }

/-- A store holding one secret message of the foreign conversation, used
to witness that the response does not depend on it. -/
def secretStore : List MsgRow :=
  [{ id := "sec", conversationId := "j1", userId := some "owner",
     role := "user", content := "secret", ordinal := 1, createdAt := 1 }]

/-- Witness for C7 at concrete runs with a secret-bearing store. -/
theorem foreign_conversation_denied_witness :
    (journeyReplyHandler envW7J secretStore).result = .notFound ∧
    replyStatus (journeyReplyHandler envW7J secretStore).result = 404 ∧
    (journeyReplyHandler envW7J secretStore).store = secretStore ∧
    (journeyReplyHandler envW7J secretStore).trace = [] ∧
    (journeyReplyHandler envW7J secretStore).result = (journeyReplyHandler envW7J []).result ∧
    (chatReplyHandler envW7C secretStore).result = .notFound ∧
    replyStatus (chatReplyHandler envW7C secretStore).result = 404 ∧
    (chatReplyHandler envW7C secretStore).store = secretStore ∧
    (chatReplyHandler envW7C secretStore).trace = [] ∧
    (chatReplyHandler envW7C secretStore).result = (chatReplyHandler envW7C []).result :=
  foreign_conversation_denied envW7J secretStore []
    { id := "j1", user_id := "owner", journey_key := "k" }
    envW7C secretStore [] { id := "s1", user_id := "owner" }
    rfl (by decide) rfl (by decide)

/-- Row of `prompts` as selected by the kickoff handler
(`select("key, content")`). -/
structure PromptRow where
  key : String
  content : String
deriving DecidableEq, Repr

/-- One element of the kickoff handler's GROQ `messages` array. Its user
turn is `userPrompt?.content`, which can be absent, so `content` is
optional here (an absent field is dropped by `JSON.stringify`). -/
structure KickoffGroqMessage where
  role : String
  content : Option String
deriving DecidableEq, Repr

/-- Side-effecting calls of the kickoff handler. -/
inductive KickoffEvent where
  | groqCall (messages : List KickoffGroqMessage)
  | insertAssistant (row : MsgRow)
deriving DecidableEq, Repr

/-- Outcome of the kickoff handler; each error constructor corresponds to
one early-return branch of the source, in source order. -/
inductive KickoffResult where
  | notFound
  | promptsNotFound
  | journeyPromptNotFound
  | groqFailed
  | emptyResponse
  | writeMessageFailed
  | created (body : ReplyOk)
deriving DecidableEq, Repr

/-- Result, final message store and call trace of one kickoff run. -/
structure KickoffOut where
  result : KickoffResult
  store : List MsgRow
  trace : List KickoffEvent
deriving DecidableEq, Repr

/-- Environment of the journey kickoff handler (`list-journeys/index.ts`
lines 129-322). `promptsRows` is the result of the
`.in("key", [key, key_user]).eq("is_active", true)` query (`none` models
`promptsError` or absent data); `preferredName` is fetched by the source
(lines 190-201) but never used afterwards. -/
structure KickoffEnv where
  userId : String
  user_journey_id : String
  journeyLookup : Option JourneyRow
  preferredName : Option String
  promptsRows : Option (List PromptRow)
  groqOk : Bool
  groqContent : Option String
  assistantInsert : Option MsgMeta
deriving DecidableEq, Repr

/-- The journey kickoff handler (`list-journeys/index.ts` lines 129-322),
from the ownership check onward: verify the `user_journey` row and owner;
query the prompt rows for the journey key and its `_user` suffix; reject
when no rows come back or when the journey (primary) prompt is missing or
empty; otherwise send system = journey prompt and user = the auxiliary
prompt's content — absent when no `_user` row exists — to GROQ; on a
usable completion insert the assistant turn and respond 201.  The
`journeys` metadata fetch (lines 204-209) is issued but its result is
never used, so it is omitted. -/
def kickoffHandler (env : KickoffEnv) (store : List MsgRow) : KickoffOut :=
  match env.journeyLookup with
  | none => { result := .notFound, store := store, trace := [] }
  | some journeyData =>
    if journeyData.user_id ≠ env.userId then
      { result := .notFound, store := store, trace := [] }
    else
      match env.promptsRows with
      | none => { result := .promptsNotFound, store := store, trace := [] }
      | some promptsData =>
        if promptsData.isEmpty then
          { result := .promptsNotFound, store := store, trace := [] }
        else
          let journeyPrompt :=
            promptsData.find? (fun p => p.key == journeyData.journey_key)
          let userPrompt :=
            promptsData.find? (fun p => p.key == journeyData.journey_key ++ "_user")
          match truthy (journeyPrompt.map (fun p => p.content)) with
          | none => { result := .journeyPromptNotFound, store := store, trace := [] }
          | some sysContent =>
            let messages : List KickoffGroqMessage :=
              [{ role := "system", content := some sysContent },
               { role := "user", content := userPrompt.map (fun p => p.content) }]
            let trace1 := [KickoffEvent.groqCall messages]
            if env.groqOk = false then
              { result := .groqFailed, store := store, trace := trace1 }
            else
              match extractText env.groqContent with
              | none => { result := .emptyResponse, store := store, trace := trace1 }
              | some aiResponse =>
                match env.assistantInsert with
                | none => { result := .writeMessageFailed, store := store, trace := trace1 }
                | some m =>
                  let row : MsgRow :=
                    { id := m.id, conversationId := env.user_journey_id,
                      userId := some env.userId, role := "assistant",
                      content := aiResponse, ordinal := m.ordinal,
                      createdAt := m.createdAt }
                  { result := .created { conversationId := env.user_journey_id,
                                         messageId := m.id, content := aiResponse,
                                         ordinal := m.ordinal,
                                         createdAt := m.createdAt },
                    store := store ++ [row],
                    trace := trace1 ++ [KickoffEvent.insertAssistant row] }

/-- C5 scenario: the caller owns journey `uj1` with key `k`; the prompt
query returns only the primary prompt row — no `k_user` row exists — and
the completion succeeds. -/
def envC5 : KickoffEnv :=
  { userId := "u1", user_journey_id := "uj1",
    journeyLookup := some { id := "uj1", user_id := "u1", journey_key := "k" },
    preferredName := none,
    promptsRows := some [{ key := "k", content := "SYS" }],
    groqOk := true, groqContent := some "hello",
    assistantInsert := some { id := "a1", ordinal := 1, createdAt := 5 } }

/-- C5 counterexample: with the auxiliary `k_user` prompt absent (the
prompt rows hold no such key), the kickoff handler does NOT reject the
request: it proceeds to the completion call with an absent user-turn
content and finishes with a 201 success. -/
theorem kickoff_missing_aux_not_rejected :
    (envC5.promptsRows.getD []).find? (fun p => p.key == "k" ++ "_user") = none ∧
    (kickoffHandler envC5 []).trace.head? =
      some (KickoffEvent.groqCall
        [{ role := "system", content := some "SYS" },
         { role := "user", content := none }]) ∧
    (kickoffHandler envC5 []).result =
      .created { conversationId := "uj1", messageId := "a1",
                 content := "hello", ordinal := 1, createdAt := 5 } := by
  decide

/-- C5 amended: a missing auxiliary `<key>_user` prompt alone never causes
rejection — whenever the prompt query returns rows and the primary
journey prompt is present and non-empty, the handler issues the
completion call with the user turn's content absent, and its result is
never one of the two prompt-rejection errors. -/
theorem kickoff_missing_aux_proceeds
    (env : KickoffEnv) (store : List MsgRow) (j : JourneyRow)
    (rows : List PromptRow) (jp : PromptRow)
    (hL : env.journeyLookup = some j) (hO : j.user_id = env.userId)
    (hR : env.promptsRows = some rows) (hNE : rows.isEmpty = false)
    (hJP : rows.find? (fun p => p.key == j.journey_key) = some jp)
    (hC : jp.content ≠ "")
    (hUP : rows.find? (fun p => p.key == j.journey_key ++ "_user") = none) :
    (kickoffHandler env store).trace.head? =
      some (KickoffEvent.groqCall
        [{ role := "system", content := some jp.content },
         { role := "user", content := none }]) ∧
    (kickoffHandler env store).result ≠ .promptsNotFound ∧
    (kickoffHandler env store).result ≠ .journeyPromptNotFound := by
  cases hg : env.groqOk <;>
    cases hx : extractText env.groqContent <;>
    cases ha : env.assistantInsert <;>
    simp [kickoffHandler, hL, hO, hR, hNE, hJP, hC, hUP, truthy, hg, hx, ha]

/-- Witness for C5's amended theorem at the concrete C5 scenario. -/
theorem kickoff_missing_aux_proceeds_witness :
    (kickoffHandler envC5 []).trace.head? =
      some (KickoffEvent.groqCall
        [{ role := "system", content := some "SYS" },
         { role := "user", content := none }]) ∧
    (kickoffHandler envC5 []).result ≠ .promptsNotFound ∧
    (kickoffHandler envC5 []).result ≠ .journeyPromptNotFound :=
  kickoff_missing_aux_proceeds envC5 []
    { id := "uj1", user_id := "u1", journey_key := "k" }
    [{ key := "k", content := "SYS" }] { key := "k", content := "SYS" }
    rfl rfl rfl (by decide) (by decide) (by decide) (by decide)

/-- Row of `chat_message` as inserted by the greeting handlers:
`{ session_id, role, content: { text } }`; `text` models the `text`
field of the structured content payload. -/
structure ChatMsgRow where
  session_id : String
  role : String
  text : String
deriving DecidableEq, Repr

/-- Environment of a greeting handler: outcome of the profile read
(errors swallowed, so only an optional name), the `chat_session` insert,
the prompt lookup, the GROQ call, the `chat_message` insert, and the
best-effort cleanup delete. -/
structure GreetingEnv where
  userId : String
  preferredName : Option String
  sessionInsert : Option String
  promptContent : Option String
  groqOk : Bool
  groqContent : Option String
  msgInsertOk : Bool
  deleteOk : Bool
deriving DecidableEq, Repr

/-- Success payload of the greeting handlers:
`{ session_id, assistant_text, assistant_message_id: null, name_used }`
(the message id field is always `null` in the source). -/
structure GreetingPayload where
  session_id : String
  assistant_text : String
  assistant_message_id : Option String
  name_used : Option String
deriving DecidableEq, Repr

/-- Outcome of a greeting handler; the `promptNotFound`, `groqFailed` and
`emptyResponse` constructors are reachable only in the current
(`src/supabase`) variant — the legacy variant swallows those failures. -/
inductive GreetingResult where
  | createSessionFailed
  | promptNotFound
  | groqFailed
  | emptyResponse
  | writeMessageFailed
  | created (payload : GreetingPayload)
deriving DecidableEq, Repr

/-- Result, final `chat_session` store and final `chat_message` store of
one greeting run. -/
structure GreetingOut where
  result : GreetingResult
  sessions : List SessionRow
  messages : List ChatMsgRow
deriving DecidableEq, Repr

/-- The current new-chat greeting handler
(`src/supabase/functions/new-chat-greeting-function/index.ts` lines
74-227): read the profile (errors swallowed); create the chat session;
hard-fail when the `system_prompt` prompt is missing/empty, the GROQ call
fails, or its text trims to empty; insert the assistant message; when
that insert fails, best-effort delete the just-created session (its own
failure swallowed) and return the write error; otherwise respond 201. -/
def newChatGreetingHandler (env : GreetingEnv) (sessions : List SessionRow)
    (messages : List ChatMsgRow) : GreetingOut :=
  match env.sessionInsert with
  | none => { result := .createSessionFailed, sessions := sessions, messages := messages }
  | some sessionId =>
    let sessions1 := sessions ++ [{ id := sessionId, user_id := env.userId }]
    match truthy env.promptContent with
    | none => { result := .promptNotFound, sessions := sessions1, messages := messages }
    | some _ =>
      if env.groqOk = false then
        { result := .groqFailed, sessions := sessions1, messages := messages }
      else
        match extractText env.groqContent with
        | none => { result := .emptyResponse, sessions := sessions1, messages := messages }
        | some messageText =>
          if env.msgInsertOk then
            { result := .created { session_id := sessionId,
                                   assistant_text := messageText,
                                   assistant_message_id := none,
                                   name_used := env.preferredName },
              sessions := sessions1,
              messages := messages ++
                [{ session_id := sessionId, role := "assistant", text := messageText }] }
          else
            let sessions2 :=
              if env.deleteOk then sessions1.filter (fun s => s.id != sessionId)
              else sessions1
            { result := .writeMessageFailed, sessions := sessions2, messages := messages }

/-- The fixed fallback greeting of the legacy handler
(`src/functions/new-chat-greeting-function/index.ts` line 89). -/
def LEGACY_FALLBACK : String := "Hello! How can I help today?"

/-- The `messageText` the legacy greeting handler ends up with
(`src/functions/new-chat-greeting-function/index.ts` lines 89-137): the
GROQ text when the `greeting_new` prompt is present and the call returns
usable text, and the fixed fallback on a missing/empty prompt, a failed
call, empty trimmed text, or a thrown error (all swallowed). -/
def legacyMessageText (env : GreetingEnv) : String :=
  match truthy env.promptContent with
  | none => LEGACY_FALLBACK
  | some _ =>
    if env.groqOk = false then LEGACY_FALLBACK
    else
      match extractText env.groqContent with
      | none => LEGACY_FALLBACK
      | some aiResponse => aiResponse

/-- The legacy greeting handler
(`src/functions/new-chat-greeting-function/index.ts` lines 61-165): read
the profile; create the chat session; compute `messageText` (never
failing the request on prompt/GROQ problems — see `legacyMessageText`);
insert the assistant message; when that insert fails, best-effort delete
the just-created session (its own failure swallowed) and return the
write error; otherwise respond 201. -/
def legacyGreetingHandler (env : GreetingEnv) (sessions : List SessionRow)
    (messages : List ChatMsgRow) : GreetingOut :=
  match env.sessionInsert with
  | none => { result := .createSessionFailed, sessions := sessions, messages := messages }
  | some sessionId =>
    let sessions1 := sessions ++ [{ id := sessionId, user_id := env.userId }]
    let messageText := legacyMessageText env
    if env.msgInsertOk then
      { result := .created { session_id := sessionId,
                             assistant_text := messageText,
                             assistant_message_id := none,
                             name_used := env.preferredName },
        sessions := sessions1,
        messages := messages ++
          [{ session_id := sessionId, role := "assistant", text := messageText }] }
    else
      let sessions2 :=
        if env.deleteOk then sessions1.filter (fun s => s.id != sessionId)
        else sessions1
      { result := .writeMessageFailed, sessions := sessions2, messages := messages }

/-- C6: in both conversation-creating greeting handlers, when the
assistant-message insert fails after the session was created in the same
request, the result is the write error whether or not the compensating
delete succeeds (the cleanup failure is swallowed), and when the delete
succeeds the just-created session row is gone from the final store.
(The journey kickoff flow creates no conversation in-request, so it has
no such branch.) -/
theorem greeting_cleanup_on_write_failure (env : GreetingEnv)
    (sessions : List SessionRow) (messages : List ChatMsgRow)
    (sid p ai : String)
    (h1 : env.sessionInsert = some sid)
    (h2 : env.msgInsertOk = false)
    (h3 : truthy env.promptContent = some p)
    (h4 : env.groqOk = true)
    (h5 : extractText env.groqContent = some ai) :
    (∀ b : Bool,
      (newChatGreetingHandler { env with deleteOk := b } sessions messages).result =
        .writeMessageFailed) ∧
    ({ id := sid, user_id := env.userId } : SessionRow) ∉
      (newChatGreetingHandler { env with deleteOk := true } sessions messages).sessions ∧
    (∀ b : Bool,
      (legacyGreetingHandler { env with deleteOk := b } sessions messages).result =
        .writeMessageFailed) ∧
    ({ id := sid, user_id := env.userId } : SessionRow) ∉
      (legacyGreetingHandler { env with deleteOk := true } sessions messages).sessions := by
  obtain ⟨uid, pn, si, pc, gq, gc, mi, dl⟩ := env
  simp only at h1 h2 h3 h4 h5
  subst h1 h2 h4
  refine ⟨fun b => ?_, ?_, fun b => ?_, ?_⟩ <;>
    simp [newChatGreetingHandler, legacyGreetingHandler, h3, h5,
      List.mem_filter, List.mem_append]

/-- Environment for the C6 witness: session `s9` is created, the GROQ
call succeeds with text `hi`, and the assistant-message insert fails. -/
def envW6 : GreetingEnv :=
  { userId := "u1", preferredName := some "Ada", sessionInsert := some "s9",
    promptContent := some "SYS", groqOk := true, groqContent := some "hi",
    msgInsertOk := false, deleteOk := true }

/-- Witness for C6 at a concrete failed assistant write. -/
theorem greeting_cleanup_on_write_failure_witness :
    (∀ b : Bool,
      (newChatGreetingHandler { envW6 with deleteOk := b } [] []).result =
        .writeMessageFailed) ∧
    ({ id := "s9", user_id := envW6.userId } : SessionRow) ∉
      (newChatGreetingHandler { envW6 with deleteOk := true } [] []).sessions ∧
    (∀ b : Bool,
      (legacyGreetingHandler { envW6 with deleteOk := b } [] []).result =
        .writeMessageFailed) ∧
    ({ id := "s9", user_id := envW6.userId } : SessionRow) ∉
      (legacyGreetingHandler { envW6 with deleteOk := true } [] []).sessions :=
  greeting_cleanup_on_write_failure envW6 [] [] "s9" "SYS" "hi"
    rfl rfl (by decide) rfl (by decide)

/-- C9: in the legacy greeting handler, whenever the `greeting_new`
prompt is missing/empty, or the GROQ call fails, or its text trims to
empty, and the message insert itself succeeds, the request still
succeeds: the 201 payload's `assistant_text` is the fixed fallback
string, and the assistant message persisted for the new session carries
that same fallback text. -/
theorem legacy_greeting_fallback (env : GreetingEnv)
    (sessions : List SessionRow) (messages : List ChatMsgRow) (sid : String)
    (h1 : env.sessionInsert = some sid)
    (h2 : env.msgInsertOk = true)
    (h3 : truthy env.promptContent = none ∨ env.groqOk = false ∨
          extractText env.groqContent = none) :
    (legacyGreetingHandler env sessions messages).result =
      .created { session_id := sid, assistant_text := LEGACY_FALLBACK,
                 assistant_message_id := none, name_used := env.preferredName } ∧
    ({ session_id := sid, role := "assistant", text := LEGACY_FALLBACK } : ChatMsgRow) ∈
      (legacyGreetingHandler env sessions messages).messages := by
  have htext : legacyMessageText env = LEGACY_FALLBACK := by
    rcases h3 with h | h | h <;>
      cases hp : truthy env.promptContent <;>
      cases hg : env.groqOk <;>
      cases hx : extractText env.groqContent <;>
      simp_all [legacyMessageText]
  obtain ⟨uid, pn, si, pc, gq, gc, mi, dl⟩ := env
  simp only at h1 h2 htext
  subst h1 h2
  simp [legacyGreetingHandler, htext]

/-- Environment for the C9 witness: no active `greeting_new` prompt row,
message insert succeeds. -/
def envW9 : GreetingEnv :=
  { userId := "u1", preferredName := none, sessionInsert := some "s1",
    promptContent := none, groqOk := true, groqContent := some "ignored",
    msgInsertOk := true, deleteOk := true }

/-- Witness for C9 at a concrete run with the prompt lookup empty. -/
theorem legacy_greeting_fallback_witness :
    (legacyGreetingHandler envW9 [] []).result =
      .created { session_id := "s1", assistant_text := LEGACY_FALLBACK,
                 assistant_message_id := none, name_used := envW9.preferredName } ∧
    ({ session_id := "s1", role := "assistant", text := LEGACY_FALLBACK } : ChatMsgRow) ∈
      (legacyGreetingHandler envW9 [] []).messages :=
  legacy_greeting_fallback envW9 [] [] "s1" rfl rfl (Or.inl rfl)

/-- Row of `user_journey` as inserted by the resolve-or-create handler
(`{ user_id, journey_key, is_active: true }` plus the returned id). -/
structure UJRow where
  id : String
  user_id : String
  journey_key : String
  is_active : Bool
deriving DecidableEq, Repr

/-- Side-effecting store calls of the resolve-or-create handler, in
order. -/
inductive ResolveEvent where
  | insertUserJourney (row : UJRow)
  | journeysLookup (key : String)
deriving DecidableEq, Repr

/-- Outcome of the resolve-or-create handler. -/
inductive ResolveResult where
  | createFailed
  | journeyNotFound
  | ok (user_journey_id : String) (journey_key : String) (journey_title : String)
deriving DecidableEq, Repr

/-- Result, final `user_journey` store and call trace of one
resolve-or-create run. -/
structure ResolveOut where
  result : ResolveResult
  store : List UJRow
  trace : List ResolveEvent
deriving DecidableEq, Repr

/-- Environment of the resolve-or-create handler
(`get-my-user-journey-id-by-key/index.ts` lines 67-127).
`existingJourney` is the id from the active-journey lookup (`none` when
no row or error); `createResult` the id returned by the insert;
`journeyTitle` the `journeys` catalog lookup for the key (`none` models
`journeyError` or no active row, the 404 branch). -/
structure ResolveEnv where
  userId : String
  journey_key : String
  existingJourney : Option String
  createResult : Option String
  journeyTitle : Option String
deriving DecidableEq, Repr

/-- The resolve-or-create handler (`get-my-user-journey-id-by-key`
lines 67-127): reuse the caller's active `user_journey` for the key when
one exists, otherwise insert a new active one; only then consult the
`journeys` catalog, answering 404 `Journey not found` when the key has no
active catalog entry — with no compensating delete of the row inserted
moments before. -/
def getMyUserJourneyIdByKey (env : ResolveEnv) (store : List UJRow) :
    ResolveOut :=
  match env.existingJourney with
  | some existingId =>
    match env.journeyTitle with
    | none => { result := .journeyNotFound, store := store,
                trace := [ResolveEvent.journeysLookup env.journey_key] }
    | some title => { result := .ok existingId env.journey_key title,
                      store := store,
                      trace := [ResolveEvent.journeysLookup env.journey_key] }
  | none =>
    match env.createResult with
    | none => { result := .createFailed, store := store, trace := [] }
    | some newId =>
      let row : UJRow := { id := newId, user_id := env.userId,
                           journey_key := env.journey_key, is_active := true }
      let store1 := store ++ [row]
      let trace1 := [ResolveEvent.insertUserJourney row,
                     ResolveEvent.journeysLookup env.journey_key]
      match env.journeyTitle with
      | none => { result := .journeyNotFound, store := store1, trace := trace1 }
      | some title => { result := .ok newId env.journey_key title,
                        store := store1, trace := trace1 }

/-- C10: when no active `user_journey` exists for the caller and key and
the insert succeeds, the new row is inserted before the catalog lookup
(the trace is exactly insert-then-lookup, with no delete); if the key
then matches no active catalog entry the handler answers the 404
journey-not-found result while the row inserted in the same request is
still in the final store. -/
theorem orphan_user_journey_on_unknown_key (env : ResolveEnv)
    (store : List UJRow) (newId : String)
    (h1 : env.existingJourney = none)
    (h2 : env.createResult = some newId)
    (h3 : env.journeyTitle = none) :
    (getMyUserJourneyIdByKey env store).result = .journeyNotFound ∧
    ({ id := newId, user_id := env.userId, journey_key := env.journey_key,
       is_active := true } : UJRow) ∈ (getMyUserJourneyIdByKey env store).store ∧
    (getMyUserJourneyIdByKey env store).trace =
      [ResolveEvent.insertUserJourney
        { id := newId, user_id := env.userId, journey_key := env.journey_key,
          is_active := true },
       ResolveEvent.journeysLookup env.journey_key] := by
  simp [getMyUserJourneyIdByKey, h1, h2, h3]

/-- Environment for the C10 witness: fresh user, unknown key `nosuch`. -/
def envW10 : ResolveEnv :=
  { userId := "u1", journey_key := "nosuch", existingJourney := none,
    createResult := some "uj1", journeyTitle := none }

/-- Witness for C10 at a concrete run. -/
theorem orphan_user_journey_on_unknown_key_witness :
    (getMyUserJourneyIdByKey envW10 []).result = .journeyNotFound ∧
    ({ id := "uj1", user_id := envW10.userId, journey_key := envW10.journey_key,
       is_active := true } : UJRow) ∈ (getMyUserJourneyIdByKey envW10 []).store ∧
    (getMyUserJourneyIdByKey envW10 []).trace =
      [ResolveEvent.insertUserJourney
        { id := "uj1", user_id := envW10.userId,
          journey_key := envW10.journey_key, is_active := true },
       ResolveEvent.journeysLookup envW10.journey_key] :=
  orphan_user_journey_on_unknown_key envW10 [] "uj1" rfl rfl rfl
